import Mathlib

/-!
Shallow embedding of the bugland scene-compositor and corruption layer
(`arcade_universe/dataset.py` and `arcade_universe/corruptor.py`).

Pixel arrays are modelled as lists of rationals (canvas, patches) or lists
of integers (collision accumulator).  The external numpy random source is
modelled as a concrete deterministic pseudo-random state: the claims under
study are about determinism, ranges and structural shape of the outputs,
none of which depend on the particular distribution of the draws.
-/

namespace Bugland

/-- Deterministic model of the external `numpy.random.RandomState` object:
a pure state from which bounded integers, uniform rationals in `[0,1)`,
Bernoulli draws and (zero-mean) normal draws are produced.  The concrete
step function is a 64-bit linear congruential generator; the development
only relies on the draws being deterministic functions of the state. -/
structure RState where
  state : Nat
deriving Repr, DecidableEq

/-- Model of `np.random.RandomState(seed)`. -/
def mkRState (seed : Nat) : RState :=
  ⟨seed % 2 ^ 64⟩

/-- One raw step of the generator, returning a value in `[0, 2^64)`. -/
def RState.next (st : RState) : Nat × RState :=
  let n := (st.state * 6364136223846793005 + 1442695040888963407) % 2 ^ 64
  (n, ⟨n⟩)

/-- Model of `rng.randint(bound)`: a bounded integer draw. -/
def RState.randint (st : RState) (bound : Nat) : Nat × RState :=
  let p := st.next
  (p.1 % bound, p.2)

/-- A uniform draw in `[0, 1)`, the primitive from which the Bernoulli
draw of `binomial(n=1, p)` is modelled. -/
def RState.uniform (st : RState) : ℚ × RState :=
  let p := st.next
  ((p.1 : ℚ) / 2 ^ 64, p.2)

/-- Model of one `s_rng.binomial(n=1, p=p)` draw: `1` with probability
`p`, else `0` (success iff the uniform draw falls below `p`). -/
def RState.binomialDraw (st : RState) (p : ℚ) : ℚ × RState :=
  let u := st.uniform
  ((if u.1 < p then (1 : ℚ) else 0), u.2)

/-- Model of one `s_rng.normal(loc=0, scale=scale)` draw: a deterministic
zero-mean value derived from the uniform draw.  Only determinism and the
fact that it is some rational matter to the claims. -/
def RState.normalDraw (st : RState) (scale : ℚ) : ℚ × RState :=
  let u := st.uniform
  (scale * (u.1 - 1 / 2), u.2)

/-- Translation of `Corruptor.__init__`: seed an outer RandomState with the
supplied seed, draw one integer below `2^30` from it, and use that integer
to seed the noise-generating state `self.s_rng`. -/
def corruptorSRng (rngSeed : Nat) : RState :=
  let rng := mkRState rngSeed
  let seed := (rng.randint (2 ^ 30)).1
  mkRState seed

/-- Draw `n` Bernoulli values with success probability `p`, threading the
random state; models `s_rng.binomial(size=x.shape, n=1, p=p)`. -/
def drawBernoullis (p : ℚ) : Nat → RState → List ℚ × RState
  | 0, st => ([], st)
  | n + 1, st =>
    let b := st.binomialDraw p
    let rest := drawBernoullis p n b.2
    (b.1 :: rest.1, rest.2)

/-- Draw `n` normal values with standard deviation `scale`, threading the
random state; models `s_rng.normal(size=x.shape, loc=0, scale=scale)`. -/
def drawNormals (scale : ℚ) : Nat → RState → List ℚ × RState
  | 0, st => ([], st)
  | n + 1, st =>
    let v := st.normalDraw scale
    let rest := drawNormals scale n v.2
    (v.1 :: rest.1, rest.2)

/-- Python / numpy floating modulo `a % b` on reals: `a - b * ⌊a / b⌋`. -/
def npFmod (a b : ℚ) : ℚ :=
  a - b * ⌊a / b⌋

/-- Translation of `BinomialCorruptor._corrupt`:
`self.s_rng.binomial(size=x.shape, n=1, p=1 - self.corruption_level) * x`. -/
def binomialCorrupt (corruption_level : ℚ) (x : List ℚ) (st : RState) :
    List ℚ × RState :=
  let draws := drawBernoullis (1 - corruption_level) x.length st
  (List.zipWith (fun b v => b * v) draws.1 x, draws.2)

/-- Translation of `GaussianCorruptor._corrupt`:
`noise = s_rng.normal(size=x.shape, loc=0, scale=corruption_level)`
followed by `abs(noise + x) % 255`. -/
def gaussianCorrupt (corruption_level : ℚ) (x : List ℚ) (st : RState) :
    List ℚ × RState :=
  let noise := drawNormals corruption_level x.length st
  (List.zipWith (fun n v => npFmod |n + v| 255) noise.1 x, noise.2)

/-- Translation of `DummyCorruptor.__call__`: returns the inputs. -/
def dummyCorrupt (x : List ℚ) (st : RState) : List ℚ × RState :=
  (x, st)

/-- Run a sequence of calls of the binomial corruptor on a sequence of
input arrays, threading the mutable `s_rng` across calls. -/
def runBinomialSeq (corruption_level : ℚ) : List (List ℚ) → RState → List (List ℚ)
  | [], _ => []
  | x :: xs, st =>
    let r := binomialCorrupt corruption_level x st
    r.1 :: runBinomialSeq corruption_level xs r.2

/-- Run a sequence of calls of the Gaussian corruptor, threading state. -/
def runGaussianSeq (stdev : ℚ) : List (List ℚ) → RState → List (List ℚ)
  | [], _ => []
  | x :: xs, st =>
    let r := gaussianCorrupt stdev x st
    r.1 :: runGaussianSeq stdev xs r.2

/-- Run a sequence of calls of the identity corruptor, threading state. -/
def runDummySeq : List (List ℚ) → RState → List (List ℚ)
  | [], _ => []
  | x :: xs, st =>
    let r := dummyCorrupt x st
    r.1 :: runDummySeq xs r.2

/-! Scene compositor (`arcade_universe/dataset.py`). -/

/-- A sprite as consumed by `SpritePlacer`: visible patch of shape
`(h, w)`, collision mask of shape `(mh, mw)` and collision margins.
Constructed by the external sprite source; the compositor reads the
fields `h, w, marginh, marginw, mh, mw, mask, patch`. -/
structure Sprite where
  h : Nat
  w : Nat
  marginh : Nat
  marginw : Nat
  mh : Nat
  mw : Nat
  mask : List (List Int)
  patch : List (List ℚ)
deriving Repr, DecidableEq

/-- Read cell `(i, j)` of an integer matrix (out of range reads `0`;
indices produced by the compositor's arithmetic stay in range for
well-formed sprites). -/
def getCell (m : List (List Int)) (i j : Int) : Int :=
  if 0 ≤ i ∧ 0 ≤ j then (((m.get? i.toNat).getD []).get? j.toNat).getD 0 else 0

/-- Read cell `(i, j)` of a rational matrix. -/
def getQ (m : List (List ℚ)) (i j : Nat) : ℚ :=
  ((m.get? i).getD []).get? j |>.getD 0

/-- Map a function receiving the element index over a list, starting the
index count at `k`. -/
def mapIdxAux (f : Nat → α → α) : Nat → List α → List α
  | _, [] => []
  | k, a :: as => f k a :: mapIdxAux f (k + 1) as

/-- Pointwise semantics of the numpy slice addition
`coll[a:b, c:d] += src[ba:bb, bc:bd]`: each cell `(i, j)` of `coll` with
`a ≤ i < b` and `c ≤ j < d` receives `src[ba + (i - a), bc + (j - c)]`.
In the compositor the slice shapes always match
(`bb - ba = b - a` and `bd - bc = d - c`), so the offset form reads
exactly the cells of the source slice. -/
def addRegion (coll : List (List Int)) (a b c d : Int)
    (src : List (List Int)) (ba bc : Int) : List (List Int) :=
  mapIdxAux (fun i row =>
    if a ≤ (i : Int) ∧ (i : Int) < b then
      mapIdxAux (fun j v =>
        if c ≤ (j : Int) ∧ (j : Int) < d then
          v + getCell src (ba + (i : Int) - a) (bc + (j : Int) - c)
        else v) 0 row
    else row) 0 coll

/-- Translation of the accumulation step of `SpritePlacer.__iter__` for one
sprite (dataset.py lines 134-147): compute the margined footprint
`[y - marginh, y + h + marginh) x [x - marginw, x + w + marginw)`; if
`a < 0 or b >= h or c < 0 or d >= w` compute the clipped mask offsets
`ba, bb, bc, bd`, clamp the destination to `[max(0,a), min(b,H-1))` and
`[max(0,c), min(d,W-1))` and add `mask[ba:bb, bc:bd]`; otherwise add the
full mask at the footprint. -/
def accumSprite (H W : Nat) (coll : List (List Int)) (x y : Nat)
    (sp : Sprite) : List (List Int) :=
  let a : Int := (y : Int) - sp.marginh
  let b : Int := (y : Int) + sp.h + sp.marginh
  let c : Int := (x : Int) - sp.marginw
  let d : Int := (x : Int) + sp.w + sp.marginw
  if a < 0 ∨ (H : Int) ≤ b ∨ c < 0 ∨ (W : Int) ≤ d then
    let ba : Int := if a < 0 then -a else 0
    let bc : Int := if c < 0 then -c else 0
    addRegion coll (max 0 a) (min b ((H : Int) - 1))
      (max 0 c) (min d ((W : Int) - 1)) sp.mask ba bc
  else
    addRegion coll a b c d sp.mask 0 0

/-- Accumulation step as the specification words it: clip the destination
rectangle to the canvas bounds `[0, H) x [0, W)` and add exactly the
correspondingly clipped sub-region of the mask (the full mask when the
footprint lies fully within the canvas). -/
def accumSpriteSpecced (H W : Nat) (coll : List (List Int)) (x y : Nat)
    (sp : Sprite) : List (List Int) :=
  let a : Int := (y : Int) - sp.marginh
  let b : Int := (y : Int) + sp.h + sp.marginh
  let c : Int := (x : Int) - sp.marginw
  let d : Int := (x : Int) + sp.w + sp.marginw
  let a' : Int := max 0 a
  let b' : Int := min b (H : Int)
  let c' : Int := max 0 c
  let d' : Int := min d (W : Int)
  addRegion coll a' b' c' d' sp.mask (a' - a) (c' - c)

/-- One placement description: the ordered `((x, y), sprite)` pairs of one
scene. -/
abbrev Desc : Type := List ((Nat × Nat) × Sprite)

/-- The zeroed collision accumulator (`collider.fill(0)`). -/
def colliderZero (H W : Nat) : List (List Int) :=
  List.replicate H (List.replicate W 0)

/-- Accumulate every sprite of a description into a zeroed collider, in
order. -/
def accumDesc (H W : Nat) (desc : Desc) : List (List Int) :=
  desc.foldl (fun coll pd => accumSprite H W coll pd.1.1 pd.1.2 pd.2)
    (colliderZero H W)

/-- Translation of the rejection test (dataset.py line 149):
`numpy.any(collider > 255) or numpy.any(collider == 2) or
numpy.any(collider == 3)`. -/
def trialRejected (H W : Nat) (desc : Desc) : Bool :=
  (accumDesc H W desc).any fun row =>
    row.any fun v => decide (255 < v) || decide (v = 2) || decide (v = 3)

/-- Translation of painting one sprite's patch onto the canvas
(`data[y:y + sprite.h, x:x + sprite.w] = sprite.patch`). -/
def paintSprite (data : List (List ℚ)) (x y : Nat) (sp : Sprite) :
    List (List ℚ) :=
  mapIdxAux (fun i row =>
    if y ≤ i ∧ i < y + sp.h then
      mapIdxAux (fun j _v =>
        if x ≤ j ∧ j < x + sp.w then getQ sp.patch (i - y) (j - x)
        else _v) 0 row
    else row) 0 data

/-- Paint every sprite of an accepted description, in order (later sprites
overwrite earlier ones). -/
def paintDesc (data : List (List ℚ)) (desc : Desc) : List (List ℚ) :=
  desc.foldl (fun dt pd => paintSprite dt pd.1.1 pd.1.2 pd.2) data

/-- The running counters of a `SpritePlacer` instance. -/
structure Counters where
  n_successes : Nat
  n_rejections : Nat
deriving Repr, DecidableEq

/-- Counter state at construction (`self.n_successes = 0`,
`self.n_rejections = 0`). -/
def initCounters : Counters :=
  ⟨0, 0⟩

/-- One Mode B trial (dataset.py lines 131-157): pull one description,
accumulate its footprints into a fresh collider and test the invariant;
on violation increment `n_rejections` and report rejection leaving the
canvas untouched; on acceptance paint every patch onto the canvas,
increment `n_successes` and report acceptance. -/
def trialStep (H W : Nat) (cnt : Counters) (data : List (List ℚ))
    (desc : Desc) : Counters × List (List ℚ) × Bool :=
  if trialRejected H W desc then
    ({ cnt with n_rejections := cnt.n_rejections + 1 }, data, false)
  else
    ({ cnt with n_successes := cnt.n_successes + 1 }, paintDesc data desc, true)

/-- Modelled from the spec: `PerlinNoiseGenerator.get_background_noise`
(file `perlin.py`, imported by dataset.py but not part of the compositor
sources).  The spec only fixes its contract: a stateful supplier that
produces a fresh canvas-shaped noise field on each request.  Modelled as
a request counter, each request producing a field determined by the count
and advancing the count. -/
def getBackgroundNoise (H W : Nat) (count : Nat) : List (List ℚ) × Nat :=
  (List.replicate H (List.replicate W (count : ℚ)), count + 1)

/-- The inner rejection-sampling loop of Mode B, run on a finite initial
segment of the description stream: try descriptions in order until one is
accepted (the flag reports whether an acceptance happened within the
segment). -/
def innerLoopB (H W : Nat) :
    Counters → List (List ℚ) → List Desc → Counters × List (List ℚ) × Bool
  | cnt, data, [] => (cnt, data, false)
  | cnt, data, desc :: rest =>
    let r := trialStep H W cnt data desc
    if r.2.2 then (r.1, r.2.1, true)
    else innerLoopB H W r.1 r.2.1 rest

/-- One outer iteration of `SpritePlacer.__iter__` in Mode B with
background noise enabled (dataset.py lines 111-157): request ONE noise
field, initialize the canvas from it, then run the inner rejection loop;
the second component is the noise supplier's request count afterwards. -/
def outerIterationB (H W : Nat) (cnt : Counters) (count : Nat)
    (descs : List Desc) : (Counters × List (List ℚ) × Bool) × Nat :=
  let p := getBackgroundNoise H W count
  (innerLoopB H W cnt p.1 descs, p.2)

/-- Translation of `SpritePlacer.rejection_rate`: `None` when no trial has
occurred, otherwise `n_rejections / (n_successes + n_rejections)`. -/
def rejection_rate (cnt : Counters) : Option ℚ :=
  let total := cnt.n_successes + cnt.n_rejections
  if total = 0 then none
  else some ((cnt.n_rejections : ℚ) / (total : ℚ))

/-- The attributes of the sprite source that `SpritePlacer.__init__`
reads. -/
structure GenSpec where
  w : Nat
  h : Nat
  nout : Nat
  nclasses : List (Option Nat)
  out_format : String
  out_dtype : String
deriving Repr, DecidableEq

/-- The state a constructed `SpritePlacer` holds. -/
structure SpritePlacerObj where
  w : Nat
  h : Nat
  nin : Nat
  out_format : String
  out_dtype : String
  nout : Nat
  nclasses : List (Option Nat)
  collision_check : Bool
  enable_perlin : Bool
  counters : Counters
  perlinCount : Option Nat
deriving Repr, DecidableEq

/-- Translation of `SpritePlacer.__init__`: copy the source's attributes,
check `assert gen.out_format == 'array'` (a fatal construction-time
error when it fails), zero both counters, and allocate the noise
supplier only when perlin is enabled.  Construction consumes nothing
from the source's iterator (the description stream is not even an
argument). -/
def spritePlacerInit (gen : GenSpec)
    (collision_check enable_perlin : Bool) : Except String SpritePlacerObj :=
  if gen.out_format = "array" then
    .ok
      { w := gen.w
        h := gen.h
        nin := gen.w * gen.h
        out_format := gen.out_format
        out_dtype := gen.out_dtype
        nout := gen.nout
        nclasses := gen.nclasses
        collision_check := collision_check
        enable_perlin := enable_perlin
        counters := initCounters
        perlinCount := if enable_perlin then some 0 else none }
  else
    .error ("AssertionError")

/-! Corruptor factory (`corruptor.py`, function `get`). -/

/-- A binding in the `corruptor` module's global namespace, as relevant to
`issubclass(obj, Corruptor)`: either a class (recording whether it is a
`Corruptor` subclass) or a non-class object. -/
inductive PyBinding where
  | cls (name : String) (isCorrSub : Bool)
  | nonCls (descr : String)
deriving Repr, DecidableEq

/-- Failure modes of `get`: `KeyError` from `globals()[str]` on an unknown
name, `NameError(str)` raised for a class that is not a `Corruptor`
subclass, `TypeError` raised by `issubclass` when the binding is not a
class at all. -/
inductive PyErr where
  | keyError (name : String)
  | nameError (name : String)
  | typeError (msg : String)
deriving Repr, DecidableEq

/-- The global bindings of the `corruptor` module: the numpy module
(`np`), the four classes (all of them `Corruptor` subclasses,
`issubclass(Corruptor, Corruptor)` included), and the function `get`
itself. -/
def corruptorGlobals : List (String × PyBinding) :=
  [("np", .nonCls ("module numpy")),
   ("Corruptor", .cls ("Corruptor") true),
   ("DummyCorruptor", .cls ("DummyCorruptor") true),
   ("BinomialCorruptor", .cls ("BinomialCorruptor") true),
   ("GaussianCorruptor", .cls ("GaussianCorruptor") true),
   ("get", .nonCls ("function get"))]

/-- Translation of `get(str)`: look the name up in the module globals
(`KeyError` when absent); on a class binding, return it when it is a
`Corruptor` subclass and raise `NameError(str)` otherwise; on a
non-class binding `issubclass` itself raises `TypeError`. -/
def getCorruptorVariant (s : String) : Except PyErr PyBinding :=
  match (corruptorGlobals.find? fun p => p.1 = s) with
  | none => .error (.keyError s)
  | some p =>
    match p.2 with
    | .cls n true => .ok (.cls n true)
    | .cls _ false => .error (.nameError s)
    | .nonCls _ => .error (.typeError ("issubclass() arg 1 must be a class"))

/-! Well-formedness of sprites as delivered by a conforming source: mask
and patch shapes are internally consistent and the painting rectangle
lies inside the canvas (the spec leaves malformed sprites undefined). -/

/-- Well-formedness of one placed sprite. -/
def spriteWF (H W x y : Nat) (sp : Sprite) : Prop :=
  sp.mh = sp.h + 2 * sp.marginh ∧ sp.mw = sp.w + 2 * sp.marginw ∧
  sp.mask.length = sp.mh ∧ (∀ r ∈ sp.mask, r.length = sp.mw) ∧
  sp.patch.length = sp.h ∧ (∀ r ∈ sp.patch, r.length = sp.w) ∧
  x + sp.w ≤ W ∧ y + sp.h ≤ H

instance (H W x y : Nat) (sp : Sprite) : Decidable (spriteWF H W x y sp) := by
  unfold spriteWF
  infer_instance

/-- Well-formedness of a whole placement description. -/
def descWF (H W : Nat) (desc : Desc) : Prop :=
  ∀ p ∈ desc, spriteWF H W p.1.1 p.1.2 p.2

instance (H W : Nat) (desc : Desc) : Decidable (descWF H W desc) := by
  unfold descWF
  infer_instance

/-! Concrete sprites used for the closed evaluations below. -/

/-- A 1x1 sprite with zero margins (mask `[[1]]`). -/
def spTiny : Sprite :=
  ⟨1, 1, 0, 0, 1, 1, [[1]], [[5]]⟩

/-- A 1x1 sprite with horizontal margin 2 (mask one row of five ones):
placed at `x = 4` on a width-5 canvas its margined footprint extends
exactly 2 pixels past the right edge. -/
def spWide : Sprite :=
  ⟨1, 1, 0, 2, 1, 5, [[1, 1, 1, 1, 1]], [[1]]⟩

/-- A description whose two sprites share a cell in the interior: always
rejected by the collision test. -/
def rejDescEx : Desc :=
  [((1, 1), spTiny), ((1, 1), spTiny)]

/-- A description with a single interior sprite: always accepted. -/
def accDescEx : Desc :=
  [((1, 1), spTiny)]

/-! Helper lemmas. -/

/-- The uniform draw lies in `[0, 1)`. -/
lemma RState.uniform_mem (st : RState) :
    0 ≤ st.uniform.1 ∧ st.uniform.1 < 1 := by
  have h : st.uniform.1 =
      (((st.state * 6364136223846793005 + 1442695040888963407) % 2 ^ 64 :
        Nat) : ℚ) / 2 ^ 64 := rfl
  rw [h]
  constructor
  · positivity
  · rw [div_lt_one (by positivity)]
    exact_mod_cast
      Nat.mod_lt (st.state * 6364136223846793005 + 1442695040888963407)
        (by positivity)

/-- With success probability `1` every Bernoulli draw is `1`. -/
lemma binomialDraw_one (st : RState) : (st.binomialDraw 1).1 = 1 := by
  simp [RState.binomialDraw, (RState.uniform_mem st).2]

/-- With success probability `0` every Bernoulli draw is `0`. -/
lemma binomialDraw_zero (st : RState) : (st.binomialDraw 0).1 = 0 := by
  simp [RState.binomialDraw, not_lt.mpr (RState.uniform_mem st).1]

/-- Every Bernoulli draw is `0` or `1`. -/
lemma binomialDraw_mem (st : RState) (p : ℚ) :
    (st.binomialDraw p).1 = 0 ∨ (st.binomialDraw p).1 = 1 := by
  unfold RState.binomialDraw
  by_cases h : st.uniform.1 < p <;> simp [h]

/-- Length of a Bernoulli batch. -/
lemma drawBernoullis_length (p : ℚ) (n : Nat) (st : RState) :
    (drawBernoullis p n st).1.length = n := by
  induction n generalizing st with
  | zero => rfl
  | succ n ih => simp [drawBernoullis, ih]

/-- A Bernoulli batch with success probability `1` is all ones. -/
lemma drawBernoullis_one (n : Nat) (st : RState) :
    (drawBernoullis 1 n st).1 = List.replicate n 1 := by
  induction n generalizing st with
  | zero => rfl
  | succ n ih => simp [drawBernoullis, binomialDraw_one, ih,
      List.replicate_succ]

/-- A Bernoulli batch with success probability `0` is all zeros. -/
lemma drawBernoullis_zero (n : Nat) (st : RState) :
    (drawBernoullis 0 n st).1 = List.replicate n 0 := by
  induction n generalizing st with
  | zero => rfl
  | succ n ih => simp [drawBernoullis, binomialDraw_zero, ih,
      List.replicate_succ]

/-- Every element of a Bernoulli batch is `0` or `1`. -/
lemma drawBernoullis_mem (p : ℚ) (n : Nat) (st : RState) :
    ∀ b ∈ (drawBernoullis p n st).1, b = 0 ∨ b = 1 := by
  induction n generalizing st with
  | zero => simp [drawBernoullis]
  | succ n ih =>
    intro b hb
    simp only [drawBernoullis, List.mem_cons] at hb
    rcases hb with hb | hb
    · subst hb
      exact binomialDraw_mem st p
    · exact ih _ b hb

/-- Multiplying elementwise by a list of ones is the identity. -/
lemma zipWith_replicate_one (x : List ℚ) :
    List.zipWith (fun b v => b * v) (List.replicate x.length 1) x = x := by
  induction x with
  | nil => rfl
  | cons a as ih => simp [List.replicate_succ, ih]

/-- Multiplying elementwise by a list of zeros gives all zeros. -/
lemma zipWith_replicate_zero (x : List ℚ) :
    List.zipWith (fun b v => b * v) (List.replicate x.length 0) x =
      List.replicate x.length 0 := by
  induction x with
  | nil => rfl
  | cons a as ih => simp [List.replicate_succ, ih]

/-- Elementwise product with a `0`/`1` list keeps or zeroes each element. -/
lemma zipWith_mul_keep_or_zero (bs x : List ℚ) (hlen : bs.length = x.length)
    (hb : ∀ b ∈ bs, b = 0 ∨ b = 1) :
    List.Forall₂ (fun o v => o = 0 ∨ o = v)
      (List.zipWith (fun b v => b * v) bs x) x := by
  induction bs generalizing x with
  | nil =>
    cases x with
    | nil => constructor
    | cons a as => simp at hlen
  | cons b bs ih =>
    cases x with
    | nil => simp at hlen
    | cons a as =>
      constructor
      · rcases hb b (List.mem_cons_self b bs) with h0 | h1
        · left
          simp [h0]
        · right
          simp [h1]
      · exact ih as (by simpa using hlen)
          (fun c hc => hb c (List.mem_cons_of_mem b hc))

/-- The Python float modulo by 255 lands in `[0, 255)`. -/
lemma npFmod_mem (a : ℚ) : 0 ≤ npFmod a 255 ∧ npFmod a 255 < 255 := by
  have h : npFmod a 255 = 255 * Int.fract (a / 255) := by
    unfold npFmod Int.fract
    ring
  rw [h]
  constructor
  · exact mul_nonneg (by norm_num) (Int.fract_nonneg _)
  · have h1 := Int.fract_lt_one (a / 255)
    nlinarith [Int.fract_nonneg (a / 255)]

/-- Any element of a `zipWith` satisfies any property satisfied by all
images of the function. -/
lemma mem_zipWith_prop {α β γ : Type} (f : α → β → γ) (P : γ → Prop)
    (hf : ∀ a b, P (f a b)) :
    ∀ (l₁ : List α) (l₂ : List β), ∀ c ∈ List.zipWith f l₁ l₂, P c := by
  intro l₁
  induction l₁ with
  | nil => simp
  | cons a as ih =>
    intro l₂ c hc
    cases l₂ with
    | nil => simp at hc
    | cons b bs =>
      simp only [List.zipWith_cons_cons, List.mem_cons] at hc
      rcases hc with hc | hc
      · subst hc
        exact hf a b
      · exact ih bs c hc

/-! Claim theorems. -/

/-- C1: the Mode B accumulation step is claimed to add exactly the
in-bounds portion of the sprite's mask at the in-bounds portion of its
margined footprint; the code instead treats a footprint whose exclusive
end merely reaches the canvas edge as overflowing, clips the destination
to `H - 1` / `W - 1` and drops one extra row/column of the mask.  For
`spWide` at `(x = 4, y = 2)` on a 5x5 canvas the footprint spans columns
`[2, 7)`, 2 pixels past the right edge: the in-bounds slice covers
columns `2..4`, yet the code leaves cell `(2, 4)` untouched while the
specified clipping marks it.  Consequently two `spTiny` sprites whose
masks fully overlap at the edge cell `(0, 2)` of a 3x3 canvas are
accepted (the same overlapping pair in the interior is rejected),
contradicting the class docstring's no-overlap guarantee. -/
theorem accumSprite_edge_clip_bug :
    getCell (accumSprite 5 5 (colliderZero 5 5) 4 2 spWide) 2 4 = 0 ∧
    getCell (accumSpriteSpecced 5 5 (colliderZero 5 5) 4 2 spWide) 2 4 = 1 ∧
    trialRejected 3 3 [((2, 0), spTiny), ((2, 0), spTiny)] = false ∧
    trialRejected 3 3 [((1, 1), spTiny), ((1, 1), spTiny)] = true := by
  decide

/-- C2: two independently constructed corruptors of the same variant and
parameters, seeded with equal seeds, produce identical output sequences
on identical input sequences; the internal state is derived from the
seed alone (outer state seeded with `s`, one bounded integer drawn from
it seeds the noise-generating state), so the construction is
deterministic. -/
theorem corruptor_seed_determinism (s₁ s₂ : Nat) (level stdev : ℚ)
    (xs : List (List ℚ)) (h : s₁ = s₂) :
    runBinomialSeq level xs (corruptorSRng s₁) =
      runBinomialSeq level xs (corruptorSRng s₂) ∧
    runGaussianSeq stdev xs (corruptorSRng s₁) =
      runGaussianSeq stdev xs (corruptorSRng s₂) ∧
    runDummySeq xs (corruptorSRng s₁) = runDummySeq xs (corruptorSRng s₂) := by
  subst h
  exact ⟨rfl, rfl, rfl⟩

/-- Witness for C2 at the default seed 2001. -/
theorem corruptor_seed_determinism_witness :
    runBinomialSeq (1 / 2) [[3]] (corruptorSRng 2001) =
      runBinomialSeq (1 / 2) [[3]] (corruptorSRng 2001) ∧
    runGaussianSeq 1 [[3]] (corruptorSRng 2001) =
      runGaussianSeq 1 [[3]] (corruptorSRng 2001) ∧
    runDummySeq [[3]] (corruptorSRng 2001) =
      runDummySeq [[3]] (corruptorSRng 2001) :=
  corruptor_seed_determinism 2001 2001 (1 / 2) 1 [[3]] rfl

/-- C3: the Gaussian corruptor's output is elementwise
`|noise + input| % 255` for the drawn noise, and every output element
lies in `[0, 255)`. -/
theorem gaussianCorruptor_range (stdev : ℚ) (st : RState) (x : List ℚ)
    (e : ℚ) (he : e ∈ (gaussianCorrupt stdev x st).1) :
    (0 ≤ e ∧ e < 255) ∧
    (gaussianCorrupt stdev x st).1 =
      List.zipWith (fun n v => npFmod |n + v| 255)
        (drawNormals stdev x.length st).1 x := by
  refine ⟨?_, rfl⟩
  exact mem_zipWith_prop (fun n v => npFmod |n + v| 255)
    (fun e => 0 ≤ e ∧ e < 255) (fun n v => npFmod_mem |n + v|)
    (drawNormals stdev x.length st).1 x e he

/-- Witness for C3: the single output element of the corruptor on `[3]`
is a member of the output and lies in range. -/
theorem gaussianCorruptor_range_witness :
    (0 ≤ npFmod |((mkRState 0).normalDraw 0).1 + 3| 255 ∧
      npFmod |((mkRState 0).normalDraw 0).1 + 3| 255 < 255) ∧
    (gaussianCorrupt 0 [3] (mkRState 0)).1 =
      List.zipWith (fun n v => npFmod |n + v| 255)
        (drawNormals 0 1 (mkRState 0)).1 [3] :=
  gaussianCorruptor_range 0 (mkRState 0) [3]
    (npFmod |((mkRState 0).normalDraw 0).1 + 3| 255)
    (List.mem_singleton.mpr rfl)

/-- C4: with `corruption_level = 0` the binomial corruptor returns the
input unchanged, and with `corruption_level = 1` it returns an all-zero
array of the same shape. -/
theorem binomialCorruptor_extremes (st : RState) (x : List ℚ) :
    (binomialCorrupt 0 x st).1 = x ∧
    (binomialCorrupt 1 x st).1 = List.replicate x.length 0 := by
  have h0 : (1 - 0 : ℚ) = 1 := by norm_num
  have h1 : (1 - 1 : ℚ) = 0 := by norm_num
  constructor
  · simp only [binomialCorrupt, h0, drawBernoullis_one]
    exact zipWith_replicate_one x
  · simp only [binomialCorrupt, h1, drawBernoullis_zero]
    exact zipWith_replicate_zero x

/-- C5: in Mode B every trial increments exactly one of the two counters
by exactly one; a rejected trial bumps `n_rejections` and leaves
`n_successes` and the canvas untouched, an accepted trial bumps
`n_successes` and leaves `n_rejections` untouched; both counters start
at zero at construction and a trial never decreases either. -/
theorem spritePlacer_trial_counters (H W : Nat) (cnt : Counters)
    (data : List (List ℚ)) (desc : Desc) (hwf : descWF H W desc) :
    (trialStep H W cnt data desc).1.n_successes +
        (trialStep H W cnt data desc).1.n_rejections =
      cnt.n_successes + cnt.n_rejections + 1 ∧
    cnt.n_successes ≤ (trialStep H W cnt data desc).1.n_successes ∧
    cnt.n_rejections ≤ (trialStep H W cnt data desc).1.n_rejections ∧
    initCounters.n_successes = 0 ∧ initCounters.n_rejections = 0 ∧
    ((trialStep H W cnt data desc).2.2 = false →
      (trialStep H W cnt data desc).1.n_rejections = cnt.n_rejections + 1 ∧
      (trialStep H W cnt data desc).1.n_successes = cnt.n_successes ∧
      (trialStep H W cnt data desc).2.1 = data) ∧
    ((trialStep H W cnt data desc).2.2 = true →
      (trialStep H W cnt data desc).1.n_successes = cnt.n_successes + 1 ∧
      (trialStep H W cnt data desc).1.n_rejections = cnt.n_rejections) := by
  unfold trialStep
  by_cases h : trialRejected H W desc = true
  · simp [h, initCounters]
    omega
  · simp [h, initCounters]
    omega

/-- Witness for C5: a rejected trial on a concrete well-formed overlapping
description bumps only `n_rejections` and leaves the canvas unchanged. -/
theorem spritePlacer_trial_counters_witness :
    (trialStep 3 3 initCounters (List.replicate 3 (List.replicate 3 (0 : ℚ)))
        rejDescEx).1.n_rejections = 1 ∧
    (trialStep 3 3 initCounters (List.replicate 3 (List.replicate 3 (0 : ℚ)))
        rejDescEx).1.n_successes = 0 ∧
    (trialStep 3 3 initCounters (List.replicate 3 (List.replicate 3 (0 : ℚ)))
        rejDescEx).2.1 =
      List.replicate 3 (List.replicate 3 (0 : ℚ)) := by
  have h := spritePlacer_trial_counters 3 3 initCounters
    (List.replicate 3 (List.replicate 3 (0 : ℚ))) rejDescEx (by decide)
  have h2 := h.2.2.2.2.2.1 (by decide)
  exact ⟨h2.1, h2.2.1, h2.2.2⟩

/-- C6: `rejection_rate` is exactly
`n_rejections / (n_successes + n_rejections)` once a trial has occurred
and `none` when both counters are zero; it is a pure function of the
counters, so calling it modifies nothing. -/
theorem rejection_rate_exact (cnt : Counters) :
    (cnt.n_successes + cnt.n_rejections = 0 → rejection_rate cnt = none) ∧
    (cnt.n_successes + cnt.n_rejections ≠ 0 →
      rejection_rate cnt =
        some ((cnt.n_rejections : ℚ) /
          ((cnt.n_successes + cnt.n_rejections : Nat) : ℚ))) := by
  constructor <;> intro h <;> simp [rejection_rate, h]

/-- Witness for C6: no trials gives `none`; 3 successes and 1 rejection
give exactly `1/4`. -/
theorem rejection_rate_exact_witness :
    rejection_rate ⟨0, 0⟩ = none ∧
    rejection_rate ⟨3, 1⟩ = some ((1 : ℚ) / 4) := by
  constructor
  · exact (rejection_rate_exact ⟨0, 0⟩).1 rfl
  · have h := (rejection_rate_exact ⟨3, 1⟩).2 (by decide)
    simpa using h

/-- C7 counterexample: with noise enabled, running one outer iteration on
a stream whose first description is rejected and whose second is
accepted performs two trials (one rejection, one success) but makes
exactly ONE background-noise request, not the two the per-trial claim
demands. -/
theorem spritePlacer_noise_per_trial_cex :
    (outerIterationB 3 3 initCounters 0 [rejDescEx, accDescEx]).1.1.n_rejections
        = 1 ∧
    (outerIterationB 3 3 initCounters 0 [rejDescEx, accDescEx]).1.1.n_successes
        = 1 ∧
    (outerIterationB 3 3 initCounters 0 [rejDescEx, accDescEx]).1.2.2 = true ∧
    (outerIterationB 3 3 initCounters 0 [rejDescEx, accDescEx]).2 = 1 ∧
    (outerIterationB 3 3 initCounters 0 [rejDescEx, accDescEx]).2 ≠ 2 := by
  decide

/-- C7 amended: the canvas is initialized from exactly one freshly
produced background-noise field per outer iteration (per produced
sample), regardless of how many trials are rejected inside it. -/
theorem spritePlacer_noise_per_sample (H W : Nat) (cnt : Counters)
    (count : Nat) (descs : List Desc) :
    (outerIterationB H W cnt count descs).2 = count + 1 :=
  rfl

/-- C8: constructing a `SpritePlacer` from any source whose `out_format`
is not the literal "array" fails at construction time; construction
consumes nothing from the source's iterator. -/
theorem spritePlacerInit_requires_array (gen : GenSpec) (cc ep : Bool)
    (h : gen.out_format ≠ "array") :
    spritePlacerInit gen cc ep = .error ("AssertionError") := by
  simp [spritePlacerInit, h]

/-- Witness for C8: a source advertising `out_format = "list"` is rejected
at construction. -/
theorem spritePlacerInit_requires_array_witness :
    spritePlacerInit ⟨8, 8, 1, [some 2], "list", "uint8"⟩ true false =
      .error ("AssertionError") :=
  spritePlacerInit_requires_array ⟨8, 8, 1, [some 2], "list", "uint8"⟩ true
    false (by decide)

/-- C9 counterexample: `np` is bound in the module globals to a non-class
(the numpy module), so `get "np"` fails — but with the `TypeError`
raised by `issubclass`, not with the `NameError(str)` "not a valid
variant" error the claim assigns to every non-Corruptor binding. -/
theorem corruptor_get_nonclass_cex :
    getCorruptorVariant "np" =
      .error (.typeError ("issubclass() arg 1 must be a class")) ∧
    getCorruptorVariant "np" ≠ .error (.nameError ("np")) := by
  constructor
  · rfl
  · intro h
    rw [(rfl : getCorruptorVariant "np" =
      .error (.typeError ("issubclass() arg 1 must be a class")))] at h
    exact absurd (Except.error.inj h) (by decide)

/-- C9 amended: `get` returns the bound class for a name bound to a
`Corruptor` subclass, fails with a `KeyError` ("not found") for an
unknown name, fails with the `NameError` "not a valid variant" error for
a name bound to a class that is not a `Corruptor` subclass, and fails
with a `TypeError` from `issubclass` for a name bound to a non-class
object (as `np` and `get` are). -/
theorem corruptor_get_resolution (s : String) (r : String × PyBinding) :
    ((corruptorGlobals.find? fun p => p.1 = s) = none →
      getCorruptorVariant s = .error (.keyError s)) ∧
    ((corruptorGlobals.find? fun p => p.1 = s) = some r →
      (∀ n, r.2 = .cls n true → getCorruptorVariant s = .ok (.cls n true)) ∧
      (∀ n, r.2 = .cls n false →
        getCorruptorVariant s = .error (.nameError s)) ∧
      (∀ ds, r.2 = .nonCls ds →
        getCorruptorVariant s =
          .error (.typeError ("issubclass() arg 1 must be a class")))) := by
  obtain ⟨nm, b⟩ := r
  constructor
  · intro h
    simp [getCorruptorVariant, h]
  · intro h
    refine ⟨fun n ha => ?_, fun n ha => ?_, fun ds ha => ?_⟩ <;>
      simp only at ha <;> subst ha <;> simp [getCorruptorVariant, h]

/-- Witness for C9: the three live outcomes at concrete names — a
`Corruptor` subclass resolves, an unknown name is a `KeyError`, and the
non-class binding `get` is a `TypeError`. -/
theorem corruptor_get_resolution_witness :
    getCorruptorVariant "BinomialCorruptor" =
      .ok (.cls ("BinomialCorruptor") true) ∧
    getCorruptorVariant "SaltAndPepper" =
      .error (.keyError ("SaltAndPepper")) ∧
    getCorruptorVariant "get" =
      .error (.typeError ("issubclass() arg 1 must be a class")) := by
  refine ⟨?_, ?_, ?_⟩
  · exact ((corruptor_get_resolution "BinomialCorruptor"
      ("BinomialCorruptor", .cls ("BinomialCorruptor") true)).2 rfl).1
      "BinomialCorruptor" rfl
  · exact (corruptor_get_resolution "SaltAndPepper"
      ("SaltAndPepper", .nonCls (""))).1 rfl
  · exact (((corruptor_get_resolution "get"
      ("get", .nonCls ("function get"))).2 rfl).2.2) "function get" rfl

/-- C10: for every corruption level, random state and input, the binomial
corruptor's output has the input's shape and each output element is
either `0` or the corresponding input element. -/
theorem binomialCorruptor_keep_or_zero (level : ℚ) (st : RState)
    (x : List ℚ) :
    (binomialCorrupt level x st).1.length = x.length ∧
    List.Forall₂ (fun o v => o = 0 ∨ o = v) (binomialCorrupt level x st).1 x := by
  have hlen := drawBernoullis_length (1 - level) x.length st
  constructor
  · simp [binomialCorrupt, hlen]
  · exact zipWith_mul_keep_or_zero _ x hlen
      (drawBernoullis_mem (1 - level) x.length st)

end Bugland
